import Mathlib

/-!
Shallow embedding of the EVG multi-plate monitor backend (server.js).

The embedding follows the source file closely:
- `Plate` and `MonitoringState` mirror the `monitoringState` object and the
  plate records created by the add endpoints.
- `updatePlateStatus` mirrors the `updatePlateStatus` helper (find the first
  plate with the given id and merge the update into it; silently do nothing
  when the id is absent).
- `performMonitoringCycle` mirrors the async monitoring loop: the probe
  (`checkEVGForPlate`) is modelled as a function `String -> Option Bool`
  (`none` means the probe threw), and the SMS sender (`sendSMS`) as a
  function returning `Bool` (`false` means the call threw).  The cycle also
  returns the list of SMS calls it attempted, so that notification counts
  can be stated.
- `addPlate`, `removePlate`, `putPlate` and `bulkAddPlates` mirror the four
  CRUD endpoints over the in-memory plate list.
- `SysStep` is a small-step model of the scheduler interaction: a cron tick
  runs the handler `if (monitoringState.isActive) performMonitoringCycle()`,
  and an in-flight cycle is represented by the index of the next plate it
  will process.  This is used for the overlapping-cycles claim.
-/

namespace EVG

/-- The plate status strings used by server.js:
pending, checking, clear, found, error. -/
inductive Status where
  | pending
  | checking
  | clear
  | found
  | error
deriving DecidableEq, Repr

/-- One tracked plate, as created by the add endpoints of server.js. -/
structure Plate where
  id : String
  plateNumber : String
  phoneNumber : String
  status : Status
  lastChecked : Option Nat
  alertSent : Bool
deriving DecidableEq, Repr

/-- The process-wide `monitoringState` object of server.js. -/
structure MonitoringState where
  isActive : Bool
  checkInterval : Nat
  plates : List Plate
  lastCheckTime : Option Nat
deriving DecidableEq, Repr

/-- The error classes of the CRUD endpoints: 400 for missing fields,
400 for an existing plate number, 404 for an unknown id. -/
inductive RegError where
  | validation
  | duplicate
  | notFound
deriving DecidableEq, Repr

/-- Models the JavaScript `toUpperCase()` call used by server.js:
upper-case every character of the string. -/
def jsUpper (s : String) : String := ⟨s.data.map Char.toUpper⟩

/-- Embedding of `updatePlateStatus(plateId, updates)` from server.js:
find the first plate whose id matches and merge the update into it in
place; if no plate matches, do nothing.  The merged fields of each call
site are passed as the update function `f`. -/
def updatePlateStatus (plateId : String) (f : Plate → Plate) : List Plate → List Plate
  | [] => []
  | p :: ps => if p.id = plateId then f p :: ps else p :: updatePlateStatus plateId f ps

/-- Embedding of the `app.post('/api/plates/add')` endpoint body: reject
when either field is empty (JavaScript falsiness of the empty string),
reject when a case-insensitive plate-number match exists, otherwise push
a new plate with status pending, no lastChecked, and alertSent false.
Returns the new registry together with the outcome; on an error the
registry is returned unchanged. -/
def addPlate (newId : String) (pn ph : String) (ps : List Plate) :
    List Plate × Except RegError Plate :=
  if pn = "" ∨ ph = "" then (ps, .error .validation)
  else if ps.any (fun p => jsUpper p.plateNumber = jsUpper pn) then (ps, .error .duplicate)
  else
    let newPlate : Plate :=
      { id := newId, plateNumber := jsUpper pn, phoneNumber := ph
        status := .pending, lastChecked := none, alertSent := false }
    (ps ++ [newPlate], .ok newPlate)

/-- Embedding of the `app.delete('/api/plates/:id')` endpoint body:
`findIndex` then `splice` of the first plate with the given id; 404 and
an unchanged registry when the id is absent. -/
def removePlate (plateId : String) : List Plate → List Plate × Except RegError Plate
  | [] => ([], .error .notFound)
  | p :: ps =>
    if p.id = plateId then (ps, .ok p)
    else
      let r := removePlate plateId ps
      (p :: r.1, r.2)

/-- The field merge done by the `app.put('/api/plates/:id')` endpoint:
`if (plateNumber) plate.plateNumber = plateNumber.toUpperCase()` and
`if (phoneNumber) plate.phoneNumber = phoneNumber` (the empty string is
falsy, so it leaves the field alone). -/
def putFields (pn? ph? : Option String) (p : Plate) : Plate :=
  let p1 :=
    match pn? with
    | some pn => if pn = "" then p else { p with plateNumber := jsUpper pn }
    | none => p
  match ph? with
  | some ph => if ph = "" then p1 else { p1 with phoneNumber := ph }
  | none => p1

/-- Embedding of the `app.put('/api/plates/:id')` endpoint body: find the
first plate with the given id and merge the provided fields into it (with
no duplicate check on the new plate number); 404 when the id is absent. -/
def putPlate (plateId : String) (pn? ph? : Option String) :
    List Plate → List Plate × Except RegError Plate
  | [] => ([], .error .notFound)
  | p :: ps =>
    if p.id = plateId then (putFields pn? ph? p :: ps, .ok (putFields pn? ph? p))
    else
      let r := putPlate plateId pn? ph? ps
      (p :: r.1, r.2)

/-- Embedding of the `app.post('/api/plates/bulk')` endpoint body: fold
over the entries, validating and duplicate-checking each one against the
current registry (which already contains the plates added earlier in the
same batch); failures are collected in the errors list with the message
the endpoint uses, never raised.  `mkId` supplies the fresh id for the
k-th entry (the source uses `Date.now() + Math.random()`).  Returns the
new registry, the added plates and the error entries, both in order. -/
def bulkAddPlates (mkId : Nat → String) :
    List (String × String) → Nat → List Plate →
    List Plate × List Plate × List (String × String)
  | [], _, ps => (ps, [], [])
  | (pn, ph) :: rest, k, ps =>
    if pn = "" ∨ ph = "" then
      let r := bulkAddPlates mkId rest (k + 1) ps
      (r.1, r.2.1, (pn, "Missing plate number or phone number") :: r.2.2)
    else if ps.any (fun p => jsUpper p.plateNumber = jsUpper pn) then
      let r := bulkAddPlates mkId rest (k + 1) ps
      (r.1, r.2.1, (pn, "Already exists") :: r.2.2)
    else
      let newPlate : Plate :=
        { id := mkId k, plateNumber := jsUpper pn, phoneNumber := ph
          status := .pending, lastChecked := none, alertSent := false }
      let r := bulkAddPlates mkId rest (k + 1) (ps ++ [newPlate])
      (r.1, newPlate :: r.2.1, r.2.2)

/-- Embedding of one iteration of the `for (const plate of monitoringState.plates)`
loop body of `performMonitoringCycle`, acting on the plate at position `i`.
Reads of `plate.foo` go through the current list at position `i` (the loop
variable is the array element itself); writes go through `updatePlateStatus`
(first id match), exactly as in the source.  `probe` models
`checkEVGForPlate` (`none` = the probe threw) and `smsOk` models `sendSMS`
(`false` = the call threw, caught by the surrounding `catch`, which sets the
status to error).  Returns the new list and the sendSMS calls attempted. -/
def processAt (probe : String → Option Bool) (smsOk : String → String → Bool) (now : Nat)
    (ps : List Plate) (i : Nat) : List Plate × List (String × String) :=
  match ps[i]? with
  | none => (ps, [])
  | some p0 =>
    let ps1 := updatePlateStatus p0.id
      (fun q => { q with status := .checking, lastChecked := some now }) ps
    let p := ps1[i]?.getD p0
    match probe p.plateNumber with
    | none => (updatePlateStatus p0.id (fun q => { q with status := .error }) ps1, [])
    | some true =>
      if p.alertSent then
        (updatePlateStatus p0.id (fun q => { q with status := .found }) ps1, [])
      else
        let ps2 := updatePlateStatus p0.id (fun q => { q with status := .found }) ps1
        let p2 := ps2[i]?.getD p0
        if smsOk p2.phoneNumber p2.plateNumber then
          (updatePlateStatus p0.id (fun q => { q with alertSent := true }) ps2,
            [(p2.phoneNumber, p2.plateNumber)])
        else
          (updatePlateStatus p0.id (fun q => { q with status := .error }) ps2,
            [(p2.phoneNumber, p2.plateNumber)])
    | some false =>
      (updatePlateStatus p0.id
        (fun q => { q with status := .clear, alertSent := false }) ps1, [])

/-- The plate loop of `performMonitoringCycle`: process positions
`i, i+1, ...` for `fuel` more steps (the array object is never replaced
during the cycle, so the iteration is over the fixed range of positions of
the list at cycle start). -/
def cycleLoopAux (probe : String → Option Bool) (smsOk : String → String → Bool) (now : Nat) :
    Nat → Nat → List Plate → List Plate × List (String × String)
  | 0, _, ps => (ps, [])
  | fuel + 1, i, ps =>
    let r := processAt probe smsOk now ps i
    let r2 := cycleLoopAux probe smsOk now fuel (i + 1) r.1
    (r2.1, r.2 ++ r2.2)

/-- The full plate loop, starting at position 0. -/
def cycleLoop (probe : String → Option Bool) (smsOk : String → String → Bool) (now : Nat)
    (ps : List Plate) : List Plate × List (String × String) :=
  cycleLoopAux probe smsOk now ps.length 0 ps

/-- Embedding of `performMonitoringCycle()` from server.js: return
immediately when monitoring is inactive or the registry is empty;
otherwise set `lastCheckTime` (once, before the loop — the loop touches
only `plates`) and run the plate loop.  The second component is the list
of sendSMS calls the cycle attempted. -/
def performMonitoringCycle (probe : String → Option Bool) (smsOk : String → String → Bool)
    (now : Nat) (s : MonitoringState) : MonitoringState × List (String × String) :=
  if ¬ s.isActive ∨ s.plates.length = 0 then (s, [])
  else
    let r := cycleLoop probe smsOk now s.plates
    ({ s with lastCheckTime := some now, plates := r.1 }, r.2)

/-- The net effect of one loop iteration on its own plate (derived form;
`cycleLoop_eq_map` below proves the loop equal to mapping this function
when plate ids are distinct). -/
def procPlate (probe : String → Option Bool) (smsOk : String → String → Bool) (now : Nat)
    (p : Plate) : Plate :=
  match probe p.plateNumber with
  | none => { p with status := .error, lastChecked := some now }
  | some true =>
    if p.alertSent then { p with status := .found, lastChecked := some now }
    else if smsOk p.phoneNumber p.plateNumber then
      { p with status := .found, lastChecked := some now, alertSent := true }
    else { p with status := .error, lastChecked := some now }
  | some false => { p with status := .clear, lastChecked := some now, alertSent := false }

/-- The sendSMS calls one loop iteration attempts for its own plate
(derived form, companion of `procPlate`). -/
def procLog (probe : String → Option Bool) (p : Plate) : List (String × String) :=
  match probe p.plateNumber with
  | none => []
  | some true => if p.alertSent then [] else [(p.phoneNumber, p.plateNumber)]
  | some false => []

/-- State of the whole process for the scheduling model: the monitoring
state plus, for every `performMonitoringCycle()` invocation currently in
flight, the position of the next plate it will process. -/
structure SysState where
  mstate : MonitoringState
  running : List Nat
deriving Repr

/-- Small-step model of the scheduler interaction in server.js.  A cron
tick runs `if (monitoringState.isActive) performMonitoringCycle()`; the
entry check of `performMonitoringCycle` returns immediately when
monitoring is inactive or the registry is empty, and otherwise the
invocation records `lastCheckTime` and starts its pass at position 0 —
the source has no in-flight flag, so nothing in the tick path consults
`running`.  An in-flight invocation advances by processing one plate
(`work`) and leaves `running` when its pass is exhausted (`finish`). -/
inductive SysStep (probe : String → Option Bool) (smsOk : String → String → Bool) (now : Nat) :
    SysState → SysState → Prop
  | tick (s : SysState) (ha : s.mstate.isActive = true)
      (hne : s.mstate.plates.length ≠ 0) :
      SysStep probe smsOk now s
        ⟨{ s.mstate with lastCheckTime := some now }, 0 :: s.running⟩
  | tickNoop (s : SysState)
      (h : s.mstate.isActive = false ∨ s.mstate.plates.length = 0) :
      SysStep probe smsOk now s s
  | work (s : SysState) (i : Nat) (hi : i ∈ s.running)
      (hlt : i < s.mstate.plates.length) :
      SysStep probe smsOk now s
        ⟨{ s.mstate with plates := (processAt probe smsOk now s.mstate.plates i).1 },
          (i + 1) :: s.running.erase i⟩
  | finish (s : SysState) (i : Nat) (hi : i ∈ s.running)
      (hge : s.mstate.plates.length ≤ i) :
      SysStep probe smsOk now s ⟨s.mstate, s.running.erase i⟩

/-- Case-insensitive uniqueness of the stored plate numbers, the registry
invariant of the spec. -/
def UniqPN (ps : List Plate) : Prop :=
  (ps.map (fun p => jsUpper p.plateNumber)).Nodup

/-! ### Basic lemmas -/

theorem updatePlateStatus_of_absent (plateId : String) (f : Plate → Plate) :
    ∀ ps : List Plate, (∀ p ∈ ps, p.id ≠ plateId) → updatePlateStatus plateId f ps = ps := by
  intro ps
  induction ps with
  | nil => intro _; rfl
  | cons p ps ih =>
    intro h
    simp only [updatePlateStatus]
    rw [if_neg (h p (List.mem_cons_self p ps)), ih (fun q hq => h q (List.mem_cons_of_mem p hq))]

theorem updatePlateStatus_middle (plateId : String) (f : Plate → Plate)
    (bs : List Plate) (p : Plate) (hp : p.id = plateId) :
    ∀ as : List Plate, (∀ q ∈ as, q.id ≠ plateId) →
    updatePlateStatus plateId f (as ++ p :: bs) = as ++ f p :: bs := by
  intro as
  induction as with
  | nil => intro _; simp [updatePlateStatus, hp]
  | cons a as ih =>
    intro h
    simp only [List.cons_append, updatePlateStatus]
    rw [if_neg (h a (List.mem_cons_self a as))]
    exact congrArg (List.cons a) (ih (fun q hq => h q (List.mem_cons_of_mem a hq)))

theorem char_toNat_ofNat_valid (n : Nat) (h : n.isValidChar) : (Char.ofNat n).toNat = n := by
  simp only [Char.ofNat]
  rw [dif_pos h]
  rfl

theorem char_toUpper_idem (c : Char) : c.toUpper.toUpper = c.toUpper := by
  simp only [Char.toUpper]
  by_cases h : c.toNat ≥ 97 ∧ c.toNat ≤ 122
  · rw [if_pos h]
    have hv : (c.toNat - 32).isValidChar := Or.inl (by omega)
    have ht : (Char.ofNat (c.toNat - 32)).toNat = c.toNat - 32 := char_toNat_ofNat_valid _ hv
    rw [if_neg]
    rw [ht]
    omega
  · rw [if_neg h, if_neg h]

theorem jsUpper_idem (s : String) : jsUpper (jsUpper s) = jsUpper s := by
  unfold jsUpper
  apply congrArg String.mk
  show (s.data.map Char.toUpper).map Char.toUpper = s.data.map Char.toUpper
  rw [List.map_map]
  exact List.map_congr_left (fun c _ => char_toUpper_idem c)

theorem procPlate_id (probe : String → Option Bool) (smsOk : String → String → Bool)
    (now : Nat) (p : Plate) : (procPlate probe smsOk now p).id = p.id := by
  unfold procPlate
  rcases probe p.plateNumber with - | b
  · rfl
  · rcases b
    · rfl
    · by_cases h : p.alertSent
      · simp [h]
      · by_cases h2 : smsOk p.phoneNumber p.plateNumber <;> simp [h, h2]

theorem processAt_step (probe : String → Option Bool) (smsOk : String → String → Bool)
    (now : Nat) (done rest : List Plate) (p : Plate)
    (hclean : ∀ q ∈ done, q.id ≠ p.id) :
    processAt probe smsOk now (done ++ p :: rest) done.length =
      (done ++ procPlate probe smsOk now p :: rest, procLog probe p) := by
  have hget : ∀ q : Plate, (done ++ q :: rest)[done.length]? = some q := by
    intro q
    rw [List.getElem?_append_right (Nat.le_refl _)]
    simp
  have hmid : ∀ (g : Plate → Plate) (q : Plate), q.id = p.id →
      updatePlateStatus p.id g (done ++ q :: rest) = done ++ g q :: rest :=
    fun g q hq => updatePlateStatus_middle p.id g rest q hq done hclean
  rcases hpr : probe p.plateNumber with - | b
  · simp only [processAt, procPlate, procLog, hget, Option.getD_some, hpr, hmid]
  · cases b
    · simp only [processAt, procPlate, procLog, hget, Option.getD_some, hpr, hmid]
    · rcases hA : p.alertSent
      · rcases hS : smsOk p.phoneNumber p.plateNumber
        · simp only [processAt, procPlate, procLog, hget, Option.getD_some, hpr, hmid, hA, hS,
            Bool.false_eq_true, if_false]
        · simp only [processAt, procPlate, procLog, hget, Option.getD_some, hpr, hmid, hA, hS,
            Bool.false_eq_true, if_false, if_true]
      · simp only [processAt, procPlate, procLog, hget, Option.getD_some, hpr, hmid, hA, if_true]

theorem cycleLoopAux_eq (probe : String → Option Bool) (smsOk : String → String → Bool)
    (now : Nat) :
    ∀ todo done : List Plate,
    (∀ q ∈ done, ∀ r ∈ todo, q.id ≠ r.id) →
    (todo.map Plate.id).Nodup →
    cycleLoopAux probe smsOk now todo.length done.length (done ++ todo) =
      (done ++ todo.map (procPlate probe smsOk now), todo.flatMap (procLog probe)) := by
  intro todo
  induction todo with
  | nil => intro done _ _; simp [cycleLoopAux]
  | cons p rest ih =>
    intro done hcross hnd
    have hstep := processAt_step probe smsOk now done rest p
      (fun q hq => hcross q hq p (List.mem_cons_self p rest))
    have hnd1 : (p.id :: rest.map Plate.id).Nodup := by simpa using hnd
    have hdone2 : ∀ q ∈ done ++ [procPlate probe smsOk now p], ∀ r ∈ rest, q.id ≠ r.id := by
      intro q hq r hr
      rcases List.mem_append.mp hq with h1 | h1
      · exact hcross q h1 r (List.mem_cons_of_mem p hr)
      · rw [List.mem_singleton.mp h1, procPlate_id]
        intro hcontra
        exact (List.nodup_cons.mp hnd1).1 (hcontra ▸ List.mem_map_of_mem Plate.id hr)
    have hrec := ih (done ++ [procPlate probe smsOk now p]) hdone2 (List.nodup_cons.mp hnd1).2
    simp only [List.length_append, List.length_singleton, List.append_assoc,
      List.singleton_append] at hrec
    simp only [List.length_cons, cycleLoopAux, hstep, hrec, List.map_cons, List.flatMap_cons]

theorem cycleLoop_eq_map (probe : String → Option Bool) (smsOk : String → String → Bool)
    (now : Nat) (ps : List Plate) (h : (ps.map Plate.id).Nodup) :
    cycleLoop probe smsOk now ps =
      (ps.map (procPlate probe smsOk now), ps.flatMap (procLog probe)) := by
  have := cycleLoopAux_eq probe smsOk now ps [] (by intro q hq; cases hq) h
  simpa [cycleLoop] using this

/-- Derived closed form of a full monitoring cycle when it actually runs
(monitoring active, nonempty registry, pairwise distinct plate ids): every
plate is processed exactly once, independently, by `procPlate`, and the
attempted sendSMS calls are those of `procLog`. -/
theorem performMonitoringCycle_eq (probe : String → Option Bool) (smsOk : String → String → Bool)
    (now : Nat) (s : MonitoringState) (ha : s.isActive = true) (hne : s.plates ≠ [])
    (h : (s.plates.map Plate.id).Nodup) :
    performMonitoringCycle probe smsOk now s =
      ({ s with
          lastCheckTime := some now
          plates := s.plates.map (procPlate probe smsOk now) },
        s.plates.flatMap (procLog probe)) := by
  unfold performMonitoringCycle
  rw [if_neg, cycleLoop_eq_map probe smsOk now s.plates h]
  push_neg
  exact ⟨by simp [ha], by simpa using hne⟩

theorem UniqPN_append (ps : List Plate) (q : Plate) (h : UniqPN ps)
    (hq : ∀ p ∈ ps, jsUpper p.plateNumber ≠ jsUpper q.plateNumber) : UniqPN (ps ++ [q]) := by
  unfold UniqPN at h ⊢
  rw [List.map_append, List.map_singleton]
  rw [List.nodup_append]
  refine ⟨h, List.nodup_singleton _, ?_⟩
  intro a ha hb
  rw [List.mem_singleton] at hb
  obtain ⟨p, hp, rfl⟩ := List.mem_map.mp ha
  exact hq p hp hb

theorem addPlate_uniq (newId pn ph : String) (ps : List Plate) (h : UniqPN ps) :
    UniqPN (addPlate newId pn ph ps).1 := by
  unfold addPlate
  split
  · exact h
  · split
    · exact h
    · rename_i hany
      apply UniqPN_append ps _ h
      intro p hp
      simp only [jsUpper_idem]
      intro hcontra
      exact hany (List.any_eq_true.mpr ⟨p, hp, decide_eq_true hcontra⟩)

theorem bulkAddPlates_uniq (mkId : Nat → String) :
    ∀ (entries : List (String × String)) (k : Nat) (ps : List Plate), UniqPN ps →
    UniqPN (bulkAddPlates mkId entries k ps).1 := by
  intro entries
  induction entries with
  | nil => intro k ps h; exact h
  | cons e rest ih =>
    intro k ps h
    obtain ⟨pn, ph⟩ := e
    simp only [bulkAddPlates]
    split
    · exact ih (k + 1) ps h
    · split
      · exact ih (k + 1) ps h
      · rename_i hany
        apply ih (k + 1)
        apply UniqPN_append ps _ h
        intro p hp
        simp only [jsUpper_idem]
        intro hcontra
        exact hany (List.any_eq_true.mpr ⟨p, hp, decide_eq_true hcontra⟩)

theorem removePlate_sublist (plateId : String) :
    ∀ ps : List Plate, (removePlate plateId ps).1.Sublist ps := by
  intro ps
  induction ps with
  | nil => exact List.Sublist.refl []
  | cons p ps ih =>
    simp only [removePlate]
    split
    · exact List.sublist_cons_self p ps
    · exact List.Sublist.cons₂ p ih

theorem removePlate_uniq (plateId : String) (ps : List Plate) (h : UniqPN ps) :
    UniqPN (removePlate plateId ps).1 :=
  List.Nodup.sublist (List.Sublist.map _ (removePlate_sublist plateId ps)) h

theorem procPlate_cases (probe : String → Option Bool) (smsOk : String → String → Bool)
    (now : Nat) (p : Plate) :
    procPlate probe smsOk now p = { p with status := .error, lastChecked := some now } ∨
    procPlate probe smsOk now p = { p with status := .found, lastChecked := some now } ∨
    procPlate probe smsOk now p =
      { p with status := .found, lastChecked := some now, alertSent := true } ∨
    procPlate probe smsOk now p =
      { p with status := .clear, lastChecked := some now, alertSent := false } := by
  unfold procPlate
  rcases probe p.plateNumber with - | b
  · exact Or.inl rfl
  · cases b
    · exact Or.inr (Or.inr (Or.inr rfl))
    · by_cases h : p.alertSent = true
      · rw [if_pos h]
        exact Or.inr (Or.inl rfl)
      · rw [if_neg h]
        by_cases h2 : smsOk p.phoneNumber p.plateNumber = true
        · rw [if_pos h2]
          exact Or.inr (Or.inr (Or.inl rfl))
        · rw [if_neg h2]
          exact Or.inl rfl

/-! ### Claims -/

/-- C10: `updatePlateStatus` is a total function (it cannot raise), and when
no plate with the given id exists it is a silent no-op: for every absent id
and every field merge `f` the registry is returned unchanged, so removing a
plate mid-cycle never crashes the cycle or resurrects the plate when the
in-flight cycle later applies its result through `updatePlateStatus`. -/
theorem C10_updateStatus_absent_noop (plateId : String) (f : Plate → Plate)
    (ps : List Plate) (h : ∀ p ∈ ps, p.id ≠ plateId) :
    updatePlateStatus plateId f ps = ps :=
  updatePlateStatus_of_absent plateId f ps h

/-- C10 witness: applying a status merge under an id that is not in the
registry (the plate with that id was removed) leaves the registry intact. -/
theorem C10_witness :
    updatePlateStatus "removed-id" (fun q => { q with status := Status.found })
      [{ id := "1"
         plateNumber := "A1"
         phoneNumber := "p1"
         status := Status.checking
         lastChecked := none
         alertSent := false }] =
      [{ id := "1"
         plateNumber := "A1"
         phoneNumber := "p1"
         status := Status.checking
         lastChecked := none
         alertSent := false }] :=
  C10_updateStatus_absent_noop "removed-id" _ _ (by decide)

/-- The plate record the add and bulk endpoints push on success. -/
def freshPlate (newId pn ph : String) : Plate :=
  { id := newId
    plateNumber := jsUpper pn
    phoneNumber := ph
    status := .pending
    lastChecked := none
    alertSent := false }

/-- C8: `addPlate` fails with a validation error when either field is empty
and with a duplicate error when a case-insensitive plate-number match
already exists, returning the registry unchanged in both cases; on success
it appends exactly one plate (`freshPlate`: plateNumber stored upper-cased,
status pending, alertSent false, lastChecked absent). -/
theorem C8_addPlate_spec (newId pn ph : String) (ps : List Plate) :
    ((pn = "" ∨ ph = "") → addPlate newId pn ph ps = (ps, .error .validation)) ∧
    (pn ≠ "" → ph ≠ "" → (∃ p ∈ ps, jsUpper p.plateNumber = jsUpper pn) →
      addPlate newId pn ph ps = (ps, .error .duplicate)) ∧
    (pn ≠ "" → ph ≠ "" → (∀ p ∈ ps, jsUpper p.plateNumber ≠ jsUpper pn) →
      addPlate newId pn ph ps =
        (ps ++ [freshPlate newId pn ph], .ok (freshPlate newId pn ph))) := by
  refine ⟨?_, ?_, ?_⟩
  · intro h
    unfold addPlate
    rw [if_pos h]
  · intro h1 h2 h3
    unfold addPlate
    rw [if_neg (by tauto), if_pos]
    exact List.any_eq_true.mpr (by
      obtain ⟨p, hp, he⟩ := h3
      exact ⟨p, hp, decide_eq_true he⟩)
  · intro h1 h2 h3
    unfold addPlate
    rw [if_neg (by tauto), if_neg]
    · rfl
    · intro hany
      obtain ⟨p, hp, he⟩ := List.any_eq_true.mp hany
      exact h3 p hp (of_decide_eq_true he)

/-- C8 witness: the spec scenario — adding abc123 succeeds and stores
ABC123; adding ABC123 afterwards fails with the duplicate error and leaves
the registry with exactly the one plate; adding with an empty plate number
fails with the validation error. -/
theorem C8_witness :
    addPlate "1" "abc123" "+971500000000" [] =
      ([freshPlate "1" "abc123" "+971500000000"],
        .ok (freshPlate "1" "abc123" "+971500000000")) ∧
    addPlate "2" "ABC123" "+971511111111" [freshPlate "1" "abc123" "+971500000000"] =
      ([freshPlate "1" "abc123" "+971500000000"], .error .duplicate) ∧
    addPlate "3" "" "+971500000000" [] = ([], .error .validation) :=
  ⟨(C8_addPlate_spec "1" "abc123" "+971500000000" []).2.2
      (by decide) (by decide) (by intro p hp; cases hp),
    (C8_addPlate_spec "2" "ABC123" "+971511111111" _).2.1
      (by decide) (by decide)
      ⟨freshPlate "1" "abc123" "+971500000000", by decide, by decide⟩,
    (C8_addPlate_spec "3" "" "+971500000000" []).1 (Or.inl rfl)⟩

/-- C7: `performMonitoringCycle` is a no-op when monitoring is inactive or
the registry is empty — it returns the state unchanged (in particular
`lastCheckTime` is untouched) and attempts no SMS call; otherwise the
result is exactly the input state with `lastCheckTime` set (once) to the
cycle-start instant and `plates` replaced by the plate-loop output — the
loop itself never writes `lastCheckTime`. -/
theorem C7_run_noop_or_timestamp (probe : String → Option Bool)
    (smsOk : String → String → Bool) (now : Nat) (s : MonitoringState) :
    ((s.isActive = false ∨ s.plates = []) →
      performMonitoringCycle probe smsOk now s = (s, [])) ∧
    (s.isActive = true → s.plates ≠ [] →
      performMonitoringCycle probe smsOk now s =
        ({ s with
            lastCheckTime := some now
            plates := (cycleLoop probe smsOk now s.plates).1 },
          (cycleLoop probe smsOk now s.plates).2)) := by
  constructor
  · intro h
    unfold performMonitoringCycle
    rw [if_pos]
    rcases h with h | h
    · exact Or.inl (by simp [h])
    · exact Or.inr (by simp [h])
  · intro ha hne
    unfold performMonitoringCycle
    rw [if_neg]
    push_neg
    exact ⟨by simp [ha], by simpa using hne⟩

/-- A sample clear plate for concrete runs. -/
def pClear : Plate :=
  { id := "1"
    plateNumber := "A1"
    phoneNumber := "p1"
    status := .clear
    lastChecked := none
    alertSent := false }

/-- C7 witness: on an inactive state the cycle returns the state unchanged
with no SMS attempted; on an active nonempty state the cycle stamps
`lastCheckTime` with the cycle-start instant. -/
theorem C7_witness :
    performMonitoringCycle (fun _ => some true) (fun _ _ => true) 7
      { isActive := false, checkInterval := 15, plates := [pClear], lastCheckTime := none } =
      ({ isActive := false, checkInterval := 15, plates := [pClear], lastCheckTime := none },
        []) ∧
    (performMonitoringCycle (fun _ => some true) (fun _ _ => true) 7
      { isActive := true
        checkInterval := 15
        plates := [pClear]
        lastCheckTime := none }).1.lastCheckTime = some 7 :=
  ⟨(C7_run_noop_or_timestamp _ _ 7 _).1 (Or.inl rfl),
    by rw [(C7_run_noop_or_timestamp _ _ 7 _).2 rfl (by decide)]⟩

/-- C6: when a cycle actually runs (active, nonempty registry, distinct
ids), every plate in the registry is processed — the cycle is a total
function, so a probe failure is never propagated to the caller and the
remaining plates are still processed — and a plate whose probe fails ends
with status error, its lastChecked stamped, and every other field
(including alertSent) unchanged. -/
theorem C6_probe_failure_contained (probe : String → Option Bool)
    (smsOk : String → String → Bool) (now : Nat) (s : MonitoringState)
    (ha : s.isActive = true) (hne : s.plates ≠ [])
    (hids : (s.plates.map Plate.id).Nodup) :
    (performMonitoringCycle probe smsOk now s).1.plates =
      s.plates.map (procPlate probe smsOk now) ∧
    (∀ p ∈ s.plates, probe p.plateNumber = none →
      procPlate probe smsOk now p = { p with status := .error, lastChecked := some now }) := by
  constructor
  · rw [performMonitoringCycle_eq probe smsOk now s ha hne hids]
  · intro p _ hp
    unfold procPlate
    rw [hp]

/-- A plate whose probe will fail in the mixed scenario. -/
def pE1 : Plate :=
  { id := "1"
    plateNumber := "E1"
    phoneNumber := "p1"
    status := .pending
    lastChecked := none
    alertSent := false }

/-- A plate whose probe will succeed in the mixed scenario. -/
def pE2 : Plate :=
  { id := "2"
    plateNumber := "E2"
    phoneNumber := "p2"
    status := .pending
    lastChecked := none
    alertSent := false }

/-- A probe that throws for plate E1 and reports a fine for every other. -/
def probeMixed : String → Option Bool := fun pn => if pn = "E1" then none else some true

/-- Active two-plate state for the mixed scenario. -/
def sMixed : MonitoringState :=
  { isActive := true, checkInterval := 15, plates := [pE1, pE2], lastCheckTime := none }

/-- C6 witness: the spec scenario — E1 fails, E2 is found, the cycle
completes over both plates; E1 ends with status error and alertSent
unchanged. -/
theorem C6_witness :
    (performMonitoringCycle probeMixed (fun _ _ => true) 9 sMixed).1.plates =
      sMixed.plates.map (procPlate probeMixed (fun _ _ => true) 9) ∧
    procPlate probeMixed (fun _ _ => true) 9 pE1 =
      { pE1 with status := .error, lastChecked := some 9 } :=
  ⟨(C6_probe_failure_contained probeMixed (fun _ _ => true) 9 sMixed rfl (by decide)
      (by decide)).1,
    (C6_probe_failure_contained probeMixed (fun _ _ => true) 9 sMixed rfl (by decide)
      (by decide)).2 pE1 (by decide) (by decide)⟩

/-- An active single-plate state over the sample clear plate. -/
def sClear : MonitoringState :=
  { isActive := true, checkInterval := 15, plates := [pClear], lastCheckTime := none }

/-- C2 counterexample: a single clear plate, probe reports a fine, the SMS
send throws.  After the cycle the plate has alertSent still false, but its
status is error, not found, because the sendSMS failure is caught by the
same catch handler as probe failures, which overwrites the found status
with error.  This refutes the claim that the status is found in this case. -/
theorem C2_counterexample :
    ((performMonitoringCycle (fun _ => some true) (fun _ _ => false) 5 sClear).1.plates.map
      Plate.status = [Status.error]) ∧
    ((performMonitoringCycle (fun _ => some true) (fun _ _ => false) 5 sClear).1.plates.map
      Plate.alertSent = [false]) ∧
    Status.error ≠ Status.found := by decide

/-- C2 amended: for a plate whose probe reports a fine with alertSent
previously false, if the SMS call fails then after that plate is processed
its alertSent is still false (so the next cycle retries sending), and its
status is error — not found as claimed — because the notification failure
is caught by the generic per-plate catch handler. -/
theorem C2_notify_failure_retry (probe : String → Option Bool)
    (smsOk : String → String → Bool) (now : Nat) (s : MonitoringState)
    (ha : s.isActive = true) (hne : s.plates ≠ [])
    (hids : (s.plates.map Plate.id).Nodup) (p : Plate) (_hp : p ∈ s.plates)
    (hfound : probe p.plateNumber = some true) (hA : p.alertSent = false)
    (hfail : smsOk p.phoneNumber p.plateNumber = false) :
    (performMonitoringCycle probe smsOk now s).1.plates =
      s.plates.map (procPlate probe smsOk now) ∧
    procPlate probe smsOk now p = { p with status := .error, lastChecked := some now } ∧
    (procPlate probe smsOk now p).alertSent = false ∧
    (procPlate probe smsOk now p).status = .error := by
  have hproc : procPlate probe smsOk now p =
      { p with status := .error, lastChecked := some now } := by
    unfold procPlate
    rw [hfound, hA, hfail]
    simp
  refine ⟨?_, hproc, ?_, ?_⟩
  · rw [performMonitoringCycle_eq probe smsOk now s ha hne hids]
  · rw [hproc]
    exact hA
  · rw [hproc]

/-- C2 witness: the amended statement at the concrete single-plate state
with a failing SMS sender. -/
theorem C2_witness :
    (performMonitoringCycle (fun _ => some true) (fun _ _ => false) 5 sClear).1.plates =
      sClear.plates.map (procPlate (fun _ => some true) (fun _ _ => false) 5) ∧
    procPlate (fun _ => some true) (fun _ _ => false) 5 pClear =
      { pClear with status := .error, lastChecked := some 5 } ∧
    (procPlate (fun _ => some true) (fun _ _ => false) 5 pClear).alertSent = false ∧
    (procPlate (fun _ => some true) (fun _ _ => false) 5 pClear).status = .error :=
  C2_notify_failure_retry (fun _ => some true) (fun _ _ => false) 5 sClear rfl (by decide)
    (by decide) pClear (by decide) rfl rfl rfl

/-- A plate already alerted for the current fine episode. -/
def pAlerted : Plate :=
  { id := "1"
    plateNumber := "A1"
    phoneNumber := "p1"
    status := .found
    lastChecked := some 1
    alertSent := true }

/-- Active single-plate state over the alerted plate. -/
def sAlerted : MonitoringState :=
  { isActive := true, checkInterval := 15, plates := [pAlerted], lastCheckTime := none }

/-- C3 counterexample: a plate that was already alerted (alertSent true,
status found) whose probe then fails ends the cycle with alertSent still
true but status error — so after a completed cycle alertSent = true does
not imply status = found, refuting the claim as stated. -/
theorem C3_counterexample :
    ((performMonitoringCycle (fun _ => none) (fun _ _ => true) 5 sAlerted).1.plates.map
      Plate.alertSent = [true]) ∧
    ((performMonitoringCycle (fun _ => none) (fun _ _ => true) 5 sAlerted).1.plates.map
      Plate.status = [Status.error]) ∧
    Status.error ≠ Status.found := by decide

/-- C3 amended: after every completed monitoring cycle that actually runs
(active, nonempty registry, distinct ids), every plate with alertSent =
true has status found or status error — the error case arises because a
probe failure keeps alertSent while setting the status to error. -/
theorem C3_alertSent_status_invariant (probe : String → Option Bool)
    (smsOk : String → String → Bool) (now : Nat) (s : MonitoringState)
    (ha : s.isActive = true) (hne : s.plates ≠ [])
    (hids : (s.plates.map Plate.id).Nodup) :
    ∀ q ∈ (performMonitoringCycle probe smsOk now s).1.plates,
      q.alertSent = true → q.status = Status.found ∨ q.status = Status.error := by
  rw [performMonitoringCycle_eq probe smsOk now s ha hne hids]
  intro q hq hA
  obtain ⟨p, _, rfl⟩ := List.mem_map.mp hq
  rcases procPlate_cases probe smsOk now p with h | h | h | h
  · rw [h]
    exact Or.inr rfl
  · rw [h]
    exact Or.inl rfl
  · rw [h]
    exact Or.inl rfl
  · rw [h] at hA
    simp at hA

/-- C3 witness: the amended invariant applied to the processed alerted
plate of the concrete failing-probe run. -/
theorem C3_witness :
    (procPlate (fun _ => none) (fun _ _ => true) 5 pAlerted).status = Status.found ∨
    (procPlate (fun _ => none) (fun _ _ => true) 5 pAlerted).status = Status.error :=
  C3_alertSent_status_invariant (fun _ => none) (fun _ _ => true) 5 sAlerted rfl (by decide)
    (by decide) (procPlate (fun _ => none) (fun _ _ => true) 5 pAlerted) (by decide) (by decide)

/-- A probe that reports a fine for every plate. -/
def probeYes : String → Option Bool := fun _ => some true

/-- A probe that reports no fine for every plate. -/
def probeNo : String → Option Bool := fun _ => some false

/-- An SMS sender that always succeeds. -/
def smsYes : String → String → Bool := fun _ _ => true

/-- An active single-plate monitoring state. -/
def oneReg (p : Plate) : MonitoringState :=
  { isActive := true, checkInterval := 15, plates := [p], lastCheckTime := none }

/-- C5: alert deduplication and re-arming for a tracked plate (single-plate
registry, SMS transport succeeding).  A clear plate with alertSent false
whose probe reports a fine triggers exactly one SMS call in that cycle; a
further cycle with the fine still present triggers zero additional calls;
and across a found, then clear, then found again sequence of cycles the
plate triggers exactly two SMS calls in total. -/
theorem C5_alert_dedup_rearm (p : Plate) (t1 t2 t3 : Nat)
    (_hS : p.status = Status.clear) (hA : p.alertSent = false) :
    (performMonitoringCycle probeYes smsYes t1 (oneReg p)).2.length = 1 ∧
    (performMonitoringCycle probeYes smsYes t2
      (performMonitoringCycle probeYes smsYes t1 (oneReg p)).1).2.length = 0 ∧
    (performMonitoringCycle probeNo smsYes t2
      (performMonitoringCycle probeYes smsYes t1 (oneReg p)).1).2.length = 0 ∧
    (performMonitoringCycle probeYes smsYes t3
      (performMonitoringCycle probeNo smsYes t2
        (performMonitoringCycle probeYes smsYes t1 (oneReg p)).1).1).2.length = 1 ∧
    (performMonitoringCycle probeYes smsYes t1 (oneReg p)).2.length +
      (performMonitoringCycle probeNo smsYes t2
        (performMonitoringCycle probeYes smsYes t1 (oneReg p)).1).2.length +
      (performMonitoringCycle probeYes smsYes t3
        (performMonitoringCycle probeNo smsYes t2
          (performMonitoringCycle probeYes smsYes t1 (oneReg p)).1).1).2.length = 2 := by
  simp [performMonitoringCycle, cycleLoop, cycleLoopAux, processAt, updatePlateStatus,
    oneReg, probeYes, probeNo, smsYes, hA]

/-- C5 witness: the dedup/re-arm counts at the concrete clear plate. -/
theorem C5_witness :
    (performMonitoringCycle probeYes smsYes 1 (oneReg pClear)).2.length = 1 ∧
    (performMonitoringCycle probeYes smsYes 2
      (performMonitoringCycle probeYes smsYes 1 (oneReg pClear)).1).2.length = 0 ∧
    (performMonitoringCycle probeNo smsYes 2
      (performMonitoringCycle probeYes smsYes 1 (oneReg pClear)).1).2.length = 0 ∧
    (performMonitoringCycle probeYes smsYes 3
      (performMonitoringCycle probeNo smsYes 2
        (performMonitoringCycle probeYes smsYes 1 (oneReg pClear)).1).1).2.length = 1 ∧
    (performMonitoringCycle probeYes smsYes 1 (oneReg pClear)).2.length +
      (performMonitoringCycle probeNo smsYes 2
        (performMonitoringCycle probeYes smsYes 1 (oneReg pClear)).1).2.length +
      (performMonitoringCycle probeYes smsYes 3
        (performMonitoringCycle probeNo smsYes 2
          (performMonitoringCycle probeYes smsYes 1 (oneReg pClear)).1).1).2.length = 2 :=
  C5_alert_dedup_rearm pClear 1 2 3 rfl rfl

/-- C9: `bulkAddPlates` never raises (it is total and every entry is
accounted for: added plus errors equals the number of entries); each entry
is validated and duplicate-checked exactly as `addPlate` would on the
registry as it stands when that entry is processed (the three middle
conjuncts); and a plate number occurring twice in the same batch has its
first occurrence added and its second reported in the errors. -/
theorem C9_bulkAdd_spec (mkId : Nat → String) :
    (∀ (entries : List (String × String)) (k : Nat) (ps : List Plate),
      (bulkAddPlates mkId entries k ps).2.1.length +
        (bulkAddPlates mkId entries k ps).2.2.length = entries.length) ∧
    (∀ (pn ph : String) (rest : List (String × String)) (k : Nat) (ps : List Plate),
      (addPlate (mkId k) pn ph ps).2 = .error .validation →
      bulkAddPlates mkId ((pn, ph) :: rest) k ps =
        ((bulkAddPlates mkId rest (k + 1) ps).1,
          (bulkAddPlates mkId rest (k + 1) ps).2.1,
          (pn, "Missing plate number or phone number") ::
            (bulkAddPlates mkId rest (k + 1) ps).2.2)) ∧
    (∀ (pn ph : String) (rest : List (String × String)) (k : Nat) (ps : List Plate),
      (addPlate (mkId k) pn ph ps).2 = .error .duplicate →
      bulkAddPlates mkId ((pn, ph) :: rest) k ps =
        ((bulkAddPlates mkId rest (k + 1) ps).1,
          (bulkAddPlates mkId rest (k + 1) ps).2.1,
          (pn, "Already exists") :: (bulkAddPlates mkId rest (k + 1) ps).2.2)) ∧
    (∀ (pn ph : String) (rest : List (String × String)) (k : Nat) (ps : List Plate)
      (q : Plate), (addPlate (mkId k) pn ph ps).2 = .ok q →
      bulkAddPlates mkId ((pn, ph) :: rest) k ps =
        ((bulkAddPlates mkId rest (k + 1) (ps ++ [q])).1,
          q :: (bulkAddPlates mkId rest (k + 1) (ps ++ [q])).2.1,
          (bulkAddPlates mkId rest (k + 1) (ps ++ [q])).2.2)) ∧
    (∀ (x c1 c2 : String) (ps : List Plate), x ≠ "" → c1 ≠ "" → c2 ≠ "" →
      (∀ p ∈ ps, jsUpper p.plateNumber ≠ jsUpper x) →
      bulkAddPlates mkId [(x, c1), (x, c2)] 0 ps =
        (ps ++ [freshPlate (mkId 0) x c1], [freshPlate (mkId 0) x c1],
          [(x, "Already exists")])) := by
  refine ⟨?_, ?_, ?_, ?_, ?_⟩
  · intro entries
    induction entries with
    | nil => intro k ps; simp [bulkAddPlates]
    | cons e rest ih =>
      intro k ps
      obtain ⟨pn, ph⟩ := e
      simp only [bulkAddPlates]
      split
      · have := ih (k + 1) ps
        simp only [List.length_cons]
        omega
      · split
        · have := ih (k + 1) ps
          simp only [List.length_cons]
          omega
        · have := ih (k + 1)
            (ps ++ [{ id := mkId k
                      plateNumber := jsUpper pn
                      phoneNumber := ph
                      status := .pending
                      lastChecked := none
                      alertSent := false }])
          simp only [List.length_cons]
          omega
  · intro pn ph rest k ps h
    by_cases c1 : pn = "" ∨ ph = ""
    · simp only [bulkAddPlates, if_pos c1]
    · exfalso
      by_cases c2 : ps.any (fun p => jsUpper p.plateNumber = jsUpper pn) = true
      · rw [addPlate, if_neg c1, if_pos c2] at h
        cases h
      · rw [addPlate, if_neg c1, if_neg c2] at h
        cases h
  · intro pn ph rest k ps h
    by_cases c1 : pn = "" ∨ ph = ""
    · exfalso
      rw [addPlate, if_pos c1] at h
      cases h
    · by_cases c2 : ps.any (fun p => jsUpper p.plateNumber = jsUpper pn) = true
      · simp only [bulkAddPlates, if_neg c1, c2, if_true]
      · exfalso
        rw [addPlate, if_neg c1, if_neg c2] at h
        cases h
  · intro pn ph rest k ps q h
    by_cases c1 : pn = "" ∨ ph = ""
    · exfalso
      rw [addPlate, if_pos c1] at h
      cases h
    · by_cases c2 : ps.any (fun p => jsUpper p.plateNumber = jsUpper pn) = true
      · exfalso
        rw [addPlate, if_neg c1, if_pos c2] at h
        cases h
      · rw [addPlate, if_neg c1, if_neg c2] at h
        simp only [Except.ok.injEq] at h
        subst h
        simp only [bulkAddPlates, if_neg c1, c2, Bool.false_eq_true, if_false]
  · intro x c1 c2 ps hx hc1 hc2 hnew
    have hv1 : ¬(x = "" ∨ c1 = "") := by tauto
    have hv2 : ¬(x = "" ∨ c2 = "") := by tauto
    have hd1 : ps.any (fun p => jsUpper p.plateNumber = jsUpper x) = false := by
      rw [List.any_eq_false]
      intro p hp
      simpa using hnew p hp
    have hd2 : (ps ++ [freshPlate (mkId 0) x c1]).any
        (fun p => jsUpper p.plateNumber = jsUpper x) = true := by
      rw [List.any_eq_true]
      refine ⟨freshPlate (mkId 0) x c1, List.mem_append_right _ (by simp), ?_⟩
      simp [freshPlate, jsUpper_idem]
    simp only [freshPlate] at hd2
    simp only [bulkAddPlates, if_neg hv1, if_neg hv2, hd1, hd2, Bool.false_eq_true,
      if_false, if_true, freshPlate]

/-- C9 witness: the spec scenario — a batch with X1 twice adds the first
entry and reports the second as already existing. -/
theorem C9_witness :
    bulkAddPlates (fun _ => "7") [("X1", "p1"), ("X1", "p2")] 0 [] =
      ([freshPlate "7" "X1" "p1"], [freshPlate "7" "X1" "p1"],
        [("X1", "Already exists")]) :=
  (C9_bulkAdd_spec (fun _ => "7")).2.2.2.2 "X1" "p1" "p2" []
    (by decide) (by decide) (by decide) (by intro p hp; cases hp)

/-- Whether a CRUD endpoint outcome is a success. -/
def regOk {α : Type} : Except RegError α → Bool
  | .ok _ => true
  | .error _ => false

/-- C4 counterexample: add AAA, add BBB, then update the second plate
through the put endpoint to plate number aaa — all three operations
succeed, yet the resulting registry holds two plates whose plate numbers
compare equal case-insensitively, refuting the claim that every operation
(including update) preserves the uniqueness invariant: the put endpoint
performs no duplicate check. -/
theorem C4_counterexample :
    regOk (addPlate "1" "AAA" "p1" []).2 = true ∧
    regOk (addPlate "2" "BBB" "p2" (addPlate "1" "AAA" "p1" []).1).2 = true ∧
    regOk (putPlate "2" (some "aaa") none
      (addPlate "2" "BBB" "p2" (addPlate "1" "AAA" "p1" []).1).1).2 = true ∧
    ((putPlate "2" (some "aaa") none
      (addPlate "2" "BBB" "p2" (addPlate "1" "AAA" "p1" []).1).1).1.map
        fun p => jsUpper p.plateNumber) = ["AAA", "AAA"] ∧
    ¬ UniqPN (putPlate "2" (some "aaa") none
      (addPlate "2" "BBB" "p2" (addPlate "1" "AAA" "p1" []).1).1).1 := by
  refine ⟨by decide, by decide, by decide, by decide, ?_⟩
  simp only [UniqPN]
  decide

/-- C4 amended: case-insensitive uniqueness of stored plate numbers is
preserved by add, bulkAdd and remove (it is enforced at insertion); the
update endpoint does not preserve it, because it performs no duplicate
check — see the C4 counterexample. -/
theorem C4_uniqueness_preserved (newId pn ph plateId : String) (mkId : Nat → String)
    (entries : List (String × String)) (k : Nat) (ps : List Plate) (h : UniqPN ps) :
    UniqPN (addPlate newId pn ph ps).1 ∧
    UniqPN (bulkAddPlates mkId entries k ps).1 ∧
    UniqPN (removePlate plateId ps).1 :=
  ⟨addPlate_uniq newId pn ph ps h, bulkAddPlates_uniq mkId entries k ps h,
    removePlate_uniq plateId ps h⟩

/-- C4 witness: preservation at a concrete registry. -/
theorem C4_witness :
    UniqPN (addPlate "9" "ZZ9" "p9" [pClear]).1 ∧
    UniqPN (bulkAddPlates (fun _ => "7") [("X1", "p1")] 0 [pClear]).1 ∧
    UniqPN (removePlate "1" [pClear]).1 :=
  C4_uniqueness_preserved "9" "ZZ9" "p9" "1" (fun _ => "7") [("X1", "p1")] 0 [pClear]
    (by simp only [UniqPN]; decide)

/-- The process state before any cycle: monitoring active over the sample
plate, no cycle in flight. -/
def overlapStart : SysState :=
  { mstate := sClear, running := [] }

/-- The process state after two cron ticks with no progress in between:
two cycle invocations in flight, both about to process plate 0. -/
def overlapEnd : SysState :=
  { mstate := { sClear with lastCheckTime := some 7 }, running := [0, 0] }

/-- C1 (refuted by the code): server.js has no re-entrancy guard — the cron
handler calls performMonitoringCycle() whenever isActive, and the function
itself only checks isActive and nonemptiness, never whether a previous
invocation is still running.  Two consecutive cron ticks therefore reach a
state with two passes over the registry concurrently in flight, both
mid-pass (cursor 0, with plates still to process) — the second run()
invocation began a second concurrent pass instead of being dropped. -/
theorem C1_overlapping_cycles_reachable :
    Relation.ReflTransGen (SysStep (fun _ => some true) (fun _ _ => true) 7)
      overlapStart overlapEnd ∧
    overlapEnd.running = [0, 0] ∧
    (∀ i ∈ overlapEnd.running, i < overlapEnd.mstate.plates.length) := by
  refine ⟨?_, rfl, by decide⟩
  exact Relation.ReflTransGen.head
    (SysStep.tick overlapStart rfl (by decide))
    (Relation.ReflTransGen.single
      (SysStep.tick ⟨{ overlapStart.mstate with lastCheckTime := some 7 }, [0]⟩ rfl
        (by decide)))

end EVG
